import Mathlib

/-!
Verification development for the juju `state/api` client
(`src/state/api/apiclient.go`) and the file-notify watcher worker
(`src/unnamed/part_003`, package `filenotifywatcher`).

The Go code is shallowly embedded: durations are natural numbers of
nanoseconds (Go `time.Duration` units), external effects (websocket
config creation, certificate parsing, dialing, login, the RPC ping)
are supplied as explicit result-valued inputs, and each embedded
function additionally returns a trace of the observable effects it
performs (addresses contacted, dial attempts, waits, channel closes),
so that frame and temporal properties can be stated about it.
-/

set_option autoImplicit false

namespace JujuApi

/-- One nanosecond, the unit of Go `time.Duration`. -/
def timeNanosecond : Nat := 1

/-- Go `time.Millisecond` in nanoseconds. -/
def timeMillisecond : Nat := 1000000

/-- Go `time.Second` in nanoseconds. -/
def timeSecond : Nat := 1000000000

/-- Go `time.Minute` in nanoseconds. -/
def timeMinute : Nat := 60 * timeSecond

/-- Embeds the package-level variable `PingPeriod = 5 * time.Second` of
`apiclient.go`: how often the internal connection health check runs.
It is a mutable variable in Go so it can be changed in tests; reads of
it are modelled by passing the variable's current value explicitly. -/
def PingPeriod : Nat := 5 * timeSecond

/-- Embeds the `Info` struct of `apiclient.go`: the data needed to make
a connection to a state server. -/
structure Info where
  Addrs : List String
  CACert : List Nat
  Tag : String
  Password : String
  deriving DecidableEq

/-- Embeds the `DialOpts` struct of `apiclient.go`. -/
structure DialOpts where
  Timeout : Nat
  RetryDelay : Nat
  deriving DecidableEq

/-- Embeds `DefaultDialOpts` of `apiclient.go`: 10 minutes total,
2 seconds between attempts. -/
def DefaultDialOpts : DialOpts :=
  { Timeout := 10 * timeMinute, RetryDelay := 2 * timeSecond }

/-- Embeds the `utils.AttemptStrategy` value constructed inside `Open`
from the caller's options (the package-level `openAttempt` variable is
shadowed there). -/
structure AttemptStrategy where
  Total : Nat
  Delay : Nat
  deriving DecidableEq

/-- Embeds the package-level `openAttempt` variable of `apiclient.go`
(5 minutes / 500 milliseconds); `Open` shadows it with the caller's
options, so it is never consulted by the embedded `Open`. -/
def openAttempt : AttemptStrategy :=
  { Total := 5 * timeMinute, Delay := 500 * timeMillisecond }

/-- Modelled from the spec: `utils.AttemptStrategy` lives in the
repository's `utils` package, which is not under `src/`. The spec says
the dial loop "retries after `retryDelay` until `timeout` elapses, then
returns a terminal failure", so attempt `k` starts at elapsed time
`k * delay` and a further attempt is made only while that start time is
still below `timeout`; at least one attempt is always made. This is the
number of attempts made against a permanently failing endpoint. -/
def numAttempts (timeout delay : Nat) : Nat :=
  max 1 ((timeout + delay - 1) / delay)

/-- Result and effect trace of the dial retry loop in `Open`. -/
structure DialOutcome where
  result : Except String Nat
  attempts : Nat
  waits : List Nat

/-- Embeds the retry loop of `Open`:
`for a := openAttempt.Start(); a.Next(); { conn, err = websocket.DialConfig(cfg); if err == nil break }`.
`dial k` is the outcome of the `k`-th `websocket.DialConfig` call
(`.ok c` a connection, `.error e` a failure), `delay` the wait the
strategy inserts before each retry, and the second `Nat` argument the
remaining attempt budget.  Returns the final result (the last error if
every attempt failed, mirroring Go's `err` variable), the number of
attempts made, and the list of inter-attempt waits. -/
def dialFrom (dial : Nat → Except String Nat) (delay : Nat) :
    Nat → Nat → DialOutcome
  | _, 0 => ⟨.error "", 0, []⟩
  | k, n + 1 =>
    match dial k with
    | .ok c => ⟨.ok c, 1, []⟩
    | .error e =>
      if n = 0 then ⟨.error e, 1, []⟩
      else
        let t := dialFrom dial delay (k + 1) n
        ⟨t.result, t.attempts + 1, delay :: t.waits⟩

/-- The result of an underlying `rpc.Conn.Call`: `none` is success,
`some` a failure, which is either an `rpc.RequestError` (message and
code) or any other error. -/
inductive CallErr where
  | requestErr (message code : String)
  | other (message : String)
  deriving DecidableEq

/-- The error the api client hands back to its caller. -/
inductive ClientErr where
  | paramsErr (message code : String)
  | other (message : String)
  deriving DecidableEq

/-- Modelled from the spec: `clientError` lives in the api package's
`apierror.go`, which is not under `src/`. The spec says call failures
are "scoped to the issuing caller only", so the translation maps a
server-side request error to the client-facing error value carrying the
same message and code, passes any other error through, and maps success
to success; it performs no effect. -/
def clientError : Option CallErr → Option ClientErr
  | none => none
  | some (.requestErr m c) => some (.paramsErr m c)
  | some (.other m) => some (.other m)

/-- Embeds the `State` struct of `apiclient.go`: the session returned
by `Open`. The rpc client and websocket connection are represented by
an identifier together with the observable open/closed status of the
connection and of the `broken` channel. -/
structure State where
  connId : Nat
  brokenClosed : Bool
  connClosed : Bool
  deriving DecidableEq

/-- Embeds `func (s *State) Call(...)`:
`err := s.client.Call(objType, id, request, params, response); return clientError(err)`.
The underlying rpc outcome is the explicit input `underlying`; the
session state is returned alongside the translated error, recording the
effect (none) the method has on it. -/
def Call (s : State) (underlying : Option CallErr) : State × Option ClientErr :=
  (s, clientError underlying)

/-- Embeds `func (s *State) Broken()`: the observable status of the
one-shot broken channel. -/
def Broken (s : State) : Bool :=
  s.brokenClosed

/-- External outcomes consumed by `Open`, one field per fallible
external call it makes, in source order: `websocket.NewConfig`,
`cert.ParseCert(info.CACert)`, the `k`-th `websocket.DialConfig`, and
`st.Login(info.Tag, info.Password)`. -/
structure Env where
  newConfigErr : Option String
  parseCertResult : Except String Unit
  dialResult : Nat → Except String Nat
  loginErr : Option String

/-- What `Open` returns: a Go panic (index out of range), a non-nil
error with a nil `*State`, or a non-nil `*State` with a nil error. -/
inductive OpenResult where
  | panicked
  | failure (e : String)
  | ok (st : State)
  deriving DecidableEq

/-- Effect trace of one `Open` call: every websocket location dialed,
the number of dial attempts, the waits between them, whether a login
was attempted, whether the just-opened connection was closed, and
whether the heartbeat monitor goroutine was started. -/
structure OpenTrace where
  contacted : List String
  dialAttempts : Nat
  dialWaits : List Nat
  loginAttempted : Bool
  connClosed : Bool
  monitorStarted : Bool
  deriving DecidableEq

/-- The trace of an `Open` that returned before reaching the dial loop. -/
def OpenTrace.empty : OpenTrace :=
  ⟨[], 0, [], false, false, false⟩

/-- The websocket location `Open` builds for an address:
`"wss://" + info.Addrs[0] + "/"`. -/
def wsURL (addr : String) : String :=
  "wss://" ++ addr ++ "/"

/-- Embeds the tail of `Open` after a successful dial: start the rpc
client, then `if info.Tag != "" || info.Password != ""` attempt
`st.Login`; on login failure `conn.Close()` and return the error;
otherwise allocate the `broken` channel, start `heartbeatMonitor`, and
return the state. -/
def openLogin (conn : Nat) (contacted : List String) (attempts : Nat)
    (waits : List Nat) (info : Info) (env : Env) : OpenResult × OpenTrace :=
  if info.Tag ≠ "" ∨ info.Password ≠ "" then
    match env.loginErr with
    | some e => (.failure e, ⟨contacted, attempts, waits, true, true, false⟩)
    | none => (.ok ⟨conn, false, false⟩, ⟨contacted, attempts, waits, true, false, true⟩)
  else
    (.ok ⟨conn, false, false⟩, ⟨contacted, attempts, waits, false, false, true⟩)

/-- Embeds the dial loop of `Open` and the error check after it: the
strategy is `utils.AttemptStrategy{Total: opts.Timeout, Delay: opts.RetryDelay}`;
every attempt dials the same location built from `addr0`; if the loop
ends with a non-nil error it is returned, else control continues into
`openLogin`. -/
def openDial (addr0 : String) (info : Info) (opts : DialOpts) (env : Env) :
    OpenResult × OpenTrace :=
  let n := numAttempts opts.Timeout opts.RetryDelay
  let d := dialFrom env.dialResult opts.RetryDelay 0 n
  let contacted := List.replicate d.attempts (wsURL addr0)
  match d.result with
  | .error e => (.failure e, ⟨contacted, d.attempts, d.waits, false, false, false⟩)
  | .ok conn => openLogin conn contacted d.attempts d.waits info env

/-- Embeds `func Open(info *Info, opts DialOpts)` of `apiclient.go`, in
source order: build the websocket config for `"wss://"+info.Addrs[0]+"/"`
(a Go panic if `info.Addrs` is empty, since the index is evaluated
first), return any config error, parse the CA certificate and return
any parse error, then run the dial loop and login via `openDial`. -/
def Open (info : Info) (opts : DialOpts) (env : Env) : OpenResult × OpenTrace :=
  match info.Addrs with
  | [] => (.panicked, OpenTrace.empty)
  | addr0 :: _ =>
    match env.newConfigErr with
    | some e => (.failure e, OpenTrace.empty)
    | none =>
      match env.parseCertResult with
      | .error e => (.failure e, OpenTrace.empty)
      | .ok _ => openDial addr0 info opts env

/-- Effect trace of one run of the heartbeat monitor: pings issued,
`close(s.broken)` operations performed, the sleep durations between
pings (each the value of `PingPeriod` at that moment), reconnection
attempts made (the body contains none), and whether the goroutine
returned. -/
structure MonitorTrace where
  probes : Nat
  closes : Nat
  sleeps : List Nat
  reconnects : Nat
  returned : Bool
  deriving DecidableEq

/-- Embeds the loop body of `heartbeatMonitor`: probe, and on failure
`close(s.broken); return`; on success `time.Sleep(PingPeriod)` and loop.
`ping j` is the outcome of the `j`-th `Ping` call (`true` = success),
`period j` the value the global `PingPeriod` holds when the `j`-th
sleep reads it, `k` the index of the next probe, and the last argument
the length of the observation window (the Go loop is unbounded). -/
def heartbeatAux (ping : Nat → Bool) (period : Nat → Nat) :
    Nat → Nat → MonitorTrace
  | _, 0 => ⟨0, 0, [], 0, false⟩
  | k, n + 1 =>
    if ping k then
      let t := heartbeatAux ping period (k + 1) n
      ⟨t.probes + 1, t.closes, period k :: t.sleeps, t.reconnects, t.returned⟩
    else
      ⟨1, 1, [], 0, true⟩

/-- Embeds `func (s *State) heartbeatMonitor()`, observed for `fuel`
loop iterations starting from the first probe. -/
def heartbeatMonitor (ping : Nat → Bool) (period : Nat → Nat) (fuel : Nat) :
    MonitorTrace :=
  heartbeatAux ping period 0 fuel

end JujuApi

namespace FileNotify

/-- Embeds `inotify.InCreate` (`IN_CREATE = 0x100`). -/
def inCreate : Nat := 256

/-- Embeds `inotify.InDelete` (`IN_DELETE = 0x200`). -/
def inDelete : Nat := 512

/-- Embeds the `eventType` enumeration of the filenotifywatcher
package. -/
inductive eventType where
  | unknown
  | created
  | deleted
  deriving DecidableEq

/-- Embeds `maskType`: normalizes an inotify event mask to a known
type, checking `InCreate` first, then `InDelete`. -/
def maskType (m : Nat) : eventType :=
  if m &&& inCreate ≠ 0 then .created
  else if m &&& inDelete ≠ 0 then .deleted
  else .unknown

/-- Modelled from the spec: `catacomb.ErrDying` lives in the external
`juju/worker` module, not under `src/`; the spec only requires that the
loop "returns the dying error", so it is an opaque error value. -/
def errDying : String := "catacomb: dying"

/-- One firing of the `select` in `Watcher.loop`: the catacomb's
`Dying()` channel, an inotify event (its `Name` and `Mask`), or an
error from the underlying watcher. -/
inductive LoopSignal where
  | dying
  | event (name : String) (mask : Nat)
  | watchFail (message : String)
  deriving DecidableEq

/-- Effect trace of one run of `Watcher.loop`: the booleans sent on the
`changes` channel (in order), the error the function returned (`none`
while it is still looping when the observed signals run out), the
number of select firings processed, and whether the deferred cleanup
(closing the inotify watcher and the `changes` channel) has run. -/
structure LoopTrace where
  emitted : List Bool
  result : Option String
  processed : Nat
  watcherClosed : Bool
  changesClosed : Bool
  deriving DecidableEq

/-- Embeds `func (w *Watcher) loop()` over a sequence of select
firings. On `Dying()` it returns `w.catacomb.ErrDying()`, which runs
the deferred closes. An event whose `Name` differs from `w.watchPath`
is skipped, as is one whose mask normalizes to `unknown`; otherwise
`event.Mask & inotify.InCreate != 0` is sent on `changes`. A watcher
error is logged and the loop continues. -/
def loop (watchPath : String) : List LoopSignal → LoopTrace
  | [] => ⟨[], none, 0, false, false⟩
  | .dying :: _ => ⟨[], some errDying, 1, true, true⟩
  | .event name mask :: rest =>
    let t := loop watchPath rest
    if name ≠ watchPath then
      ⟨t.emitted, t.result, t.processed + 1, t.watcherClosed, t.changesClosed⟩
    else if maskType mask = .unknown then
      ⟨t.emitted, t.result, t.processed + 1, t.watcherClosed, t.changesClosed⟩
    else
      ⟨decide (mask &&& inCreate ≠ 0) :: t.emitted, t.result, t.processed + 1,
        t.watcherClosed, t.changesClosed⟩
  | .watchFail _ :: rest =>
    let t := loop watchPath rest
    ⟨t.emitted, t.result, t.processed + 1, t.watcherClosed, t.changesClosed⟩

end FileNotify

namespace JujuApi

theorem numAttempts_pos (t d : Nat) : 1 ≤ numAttempts t d := by
  simp [numAttempts]

theorem numAttempts_budget (t d : Nat) (ht : 0 < t) (hd : 0 < d) :
    (numAttempts t d - 1) * d < t := by
  have h1 : numAttempts t d = (t + d - 1) / d := by
    have : 1 ≤ (t + d - 1) / d := by
      apply Nat.le_div_iff_mul_le hd |>.2
      omega
    simp [numAttempts]
    omega
  have h2 : (t + d - 1) / d * d ≤ t + d - 1 := Nat.div_mul_le_self _ _
  have h3 : 1 ≤ (t + d - 1) / d := by
    apply Nat.le_div_iff_mul_le hd |>.2
    omega
  rw [h1, Nat.sub_mul]
  omega

theorem dialFrom_all_fail (dial : Nat → Except String Nat) (delay : Nat)
    (errf : Nat → String) (hfail : ∀ k, dial k = .error (errf k)) :
    ∀ n k, 1 ≤ n →
      dialFrom dial delay k n =
        ⟨.error (errf (k + n - 1)), n, List.replicate (n - 1) delay⟩ := by
  intro n
  induction n with
  | zero => omega
  | succ n ih =>
    intro k _
    rw [dialFrom, hfail k]
    by_cases hn : n = 0
    · subst hn
      simp
    · have hrec := ih (k + 1) (by omega)
      simp only [if_neg hn, hrec]
      have h1 : k + 1 + n - 1 = k + (n + 1) - 1 := by omega
      have h2 : delay :: List.replicate (n - 1) delay =
          List.replicate (n + 1 - 1) delay := by
        have : n + 1 - 1 = (n - 1) + 1 := by omega
        rw [this, List.replicate_succ]
      rw [h1, h2]

theorem dialFrom_ok (dial : Nat → Except String Nat) (delay : Nat)
    (k n c : Nat) (hok : dial k = .ok c) (hn : 1 ≤ n) :
    dialFrom dial delay k n = ⟨.ok c, 1, []⟩ := by
  obtain ⟨m, rfl⟩ : ∃ m, n = m + 1 := ⟨n - 1, by omega⟩
  rw [dialFrom, hok]

theorem heartbeatAux_closes_le (ping : Nat → Bool) (period : Nat → Nat) :
    ∀ n k, (heartbeatAux ping period k n).closes ≤ 1 := by
  intro n
  induction n with
  | zero => intro k; simp [heartbeatAux]
  | succ n ih =>
    intro k
    rw [heartbeatAux]
    by_cases h : ping k
    · simpa [h] using ih (k + 1)
    · simp [h]

theorem heartbeatAux_first_fail (ping : Nat → Bool) (period : Nat → Nat) :
    ∀ m k n, (∀ j, j < m → ping (k + j) = true) → ping (k + m) = false →
      m < n →
      heartbeatAux ping period k n =
        ⟨m + 1, 1, (List.range' k m).map period, 0, true⟩ := by
  intro m
  induction m with
  | zero =>
    intro k n _ hfail hn
    obtain ⟨n1, rfl⟩ : ∃ n1, n = n1 + 1 := ⟨n - 1, by omega⟩
    rw [heartbeatAux]
    simp only [Nat.add_zero] at hfail
    simp [hfail]
  | succ m ih =>
    intro k n hok hfail hn
    obtain ⟨n1, rfl⟩ : ∃ n1, n = n1 + 1 := ⟨n - 1, by omega⟩
    have hk : ping k = true := by
      have := hok 0 (by omega)
      simpa using this
    have hok1 : ∀ j, j < m → ping (k + 1 + j) = true := by
      intro j hj
      have heq : k + 1 + j = k + (j + 1) := by omega
      rw [heq]
      exact hok (j + 1) (by omega)
    have hfail1 : ping (k + 1 + m) = false := by
      have heq : k + 1 + m = k + (m + 1) := by omega
      rw [heq]
      exact hfail
    have hrec := ih (k + 1) n1 hok1 hfail1 (by omega)
    rw [heartbeatAux, if_pos hk]
    simp only [hrec]
    rw [List.range'_succ]
    simp

theorem heartbeatMonitor_first_fail (ping : Nat → Bool) (period : Nat → Nat)
    (fuel k0 : Nat) (hok : ∀ j, j < k0 → ping j = true)
    (hfail : ping k0 = false) (hlt : k0 < fuel) :
    heartbeatMonitor ping period fuel =
      ⟨k0 + 1, 1, (List.range' 0 k0).map period, 0, true⟩ := by
  rw [heartbeatMonitor]
  exact heartbeatAux_first_fail ping period k0 0 fuel
    (fun j hj => by simpa using hok j hj) (by simpa using hfail) hlt

/-- C1: once a liveness probe fails, the heartbeat monitor closes the
broken channel exactly once and stops for good: over any observation
window the number of `close(s.broken)` operations is at most one, and
in a window long enough to contain the first probe failure the monitor
issues exactly the probes up to and including the failing one, performs
exactly one close, makes no reconnection attempt, and returns (so no
further probe or close can ever happen and every observer of the
channel sees the single open-to-closed transition). -/
theorem heartbeat_closes_broken_exactly_once_then_stops :
    (∀ (ping : Nat → Bool) (period : Nat → Nat) (fuel : Nat),
      (heartbeatMonitor ping period fuel).closes ≤ 1) ∧
    (∀ (ping : Nat → Bool) (period : Nat → Nat) (fuel k0 : Nat),
      (∀ j, j < k0 → ping j = true) → ping k0 = false → k0 < fuel →
      (heartbeatMonitor ping period fuel).probes = k0 + 1 ∧
      (heartbeatMonitor ping period fuel).closes = 1 ∧
      (heartbeatMonitor ping period fuel).reconnects = 0 ∧
      (heartbeatMonitor ping period fuel).returned = true) := by
  refine ⟨fun ping period fuel => heartbeatAux_closes_le ping period fuel 0,
    fun ping period fuel k0 hok hfail hlt => ?_⟩
  rw [heartbeatMonitor_first_fail ping period fuel k0 hok hfail hlt]
  exact ⟨rfl, rfl, rfl, rfl⟩

theorem heartbeat_closes_broken_exactly_once_then_stops_witness :
    (heartbeatMonitor (fun j => decide (j < 2)) (fun j => (j + 1) * 1000) 9).probes = 2 + 1 ∧
    (heartbeatMonitor (fun j => decide (j < 2)) (fun j => (j + 1) * 1000) 9).closes = 1 ∧
    (heartbeatMonitor (fun j => decide (j < 2)) (fun j => (j + 1) * 1000) 9).reconnects = 0 ∧
    (heartbeatMonitor (fun j => decide (j < 2)) (fun j => (j + 1) * 1000) 9).returned = true :=
  heartbeat_closes_broken_exactly_once_then_stops.2
    (fun j => decide (j < 2)) (fun j => (j + 1) * 1000) 9 2
    (by decide) (by decide) (by decide)

/-- C9: the liveness probe interval defaults to 5 seconds, and the
monitor sleeps for the current value of the global mutable `PingPeriod`
variable between probes: in a run whose first probe failure is at index
`k0`, the sleep durations are exactly the values the variable holds at
iterations `0, ..., k0 - 1`, so a monitor started after the variable is
reassigned uses the new value throughout. -/
theorem ping_period_default_and_read_each_iteration :
    PingPeriod = 5 * timeSecond ∧
    (∀ (ping : Nat → Bool) (period : Nat → Nat) (fuel k0 : Nat),
      (∀ j, j < k0 → ping j = true) → ping k0 = false → k0 < fuel →
      (heartbeatMonitor ping period fuel).sleeps = (List.range' 0 k0).map period) := by
  refine ⟨rfl, fun ping period fuel k0 hok hfail hlt => ?_⟩
  rw [heartbeatMonitor_first_fail ping period fuel k0 hok hfail hlt]

theorem ping_period_default_and_read_each_iteration_witness :
    (heartbeatMonitor (fun j => decide (j < 3)) (fun j => 2000 + j) 5).sleeps =
      (List.range' 0 3).map (fun j => 2000 + j) :=
  ping_period_default_and_read_each_iteration.2
    (fun j => decide (j < 3)) (fun j => 2000 + j) 5 3
    (by decide) (by decide) (by decide)

theorem openLogin_contacted (conn : Nat) (contacted : List String)
    (attempts : Nat) (waits : List Nat) (info : Info) (env : Env) :
    (openLogin conn contacted attempts waits info env).2.contacted = contacted := by
  rw [openLogin]
  split
  · cases env.loginErr <;> rfl
  · rfl

theorem openDial_contacted (addr0 : String) (info : Info) (opts : DialOpts)
    (env : Env) :
    (openDial addr0 info opts env).2.contacted =
      List.replicate (dialFrom env.dialResult opts.RetryDelay 0
        (numAttempts opts.Timeout opts.RetryDelay)).attempts (wsURL addr0) := by
  simp only [openDial]
  rcases hr : (dialFrom env.dialResult opts.RetryDelay 0
      (numAttempts opts.Timeout opts.RetryDelay)).result with e | c
  · rfl
  · exact openLogin_contacted c _ _ _ info env

/-- C10: an `Info` whose address list is empty makes `Open` fault with
a Go panic (the index expression `info.Addrs[0]` is out of range)
before any connection attempt: the result is the panic outcome, zero
dial attempts are made and no address is contacted.  `Open` is only
safe when the endpoint set is non-empty. -/
theorem open_empty_addrs_panics :
    ∀ (cacert : List Nat) (tag pwd : String) (opts : DialOpts) (env : Env),
      Open ⟨[], cacert, tag, pwd⟩ opts env = (.panicked, OpenTrace.empty) ∧
      (Open ⟨[], cacert, tag, pwd⟩ opts env).2.dialAttempts = 0 ∧
      (Open ⟨[], cacert, tag, pwd⟩ opts env).2.contacted = [] :=
  fun _ _ _ _ _ => ⟨rfl, rfl, rfl⟩

/-- C2: against an endpoint that fails every dial attempt, `Open`
keeps retrying with a wait of `opts.RetryDelay` between consecutive
attempts, makes exactly `numAttempts opts.Timeout opts.RetryDelay`
attempts (the spec-modelled budget: the last attempt still starts
within `opts.Timeout`, as the final conjunct states), and then returns
the terminal dial failure — the last attempt's error — instead of a
`State` value. -/
theorem open_retries_with_delay_then_returns_dial_failure :
    ∀ (cacert : List Nat) (tag pwd addr0 : String) (tl : List String)
      (opts : DialOpts) (dial : Nat → Except String Nat)
      (loginE : Option String) (errf : Nat → String),
      0 < opts.Timeout → 0 < opts.RetryDelay →
      (∀ k, dial k = .error (errf k)) →
      Open ⟨addr0 :: tl, cacert, tag, pwd⟩ opts ⟨none, .ok (), dial, loginE⟩ =
        (.failure (errf (numAttempts opts.Timeout opts.RetryDelay - 1)),
         ⟨List.replicate (numAttempts opts.Timeout opts.RetryDelay) (wsURL addr0),
          numAttempts opts.Timeout opts.RetryDelay,
          List.replicate (numAttempts opts.Timeout opts.RetryDelay - 1) opts.RetryDelay,
          false, false, false⟩) ∧
      (numAttempts opts.Timeout opts.RetryDelay - 1) * opts.RetryDelay < opts.Timeout := by
  intro cacert tag pwd addr0 tl opts dial loginE errf ht hd hfail
  refine ⟨?_, numAttempts_budget _ _ ht hd⟩
  have hdf := dialFrom_all_fail dial opts.RetryDelay errf hfail
    (numAttempts opts.Timeout opts.RetryDelay) 0
    (numAttempts_pos opts.Timeout opts.RetryDelay)
  simp only [Open, openDial, hdf, Nat.zero_add]

theorem open_retries_with_delay_then_returns_dial_failure_witness :
    Open ⟨["10.0.0.1:17070"], [1], "", ""⟩ ⟨100, 10⟩
        ⟨none, .ok (), fun _ => .error "connection refused", none⟩ =
      (.failure "connection refused",
       ⟨List.replicate (numAttempts 100 10) (wsURL "10.0.0.1:17070"),
        numAttempts 100 10, List.replicate (numAttempts 100 10 - 1) 10,
        false, false, false⟩) ∧
      (numAttempts 100 10 - 1) * 10 < 100 :=
  open_retries_with_delay_then_returns_dial_failure [1] "" "" "10.0.0.1:17070"
    [] ⟨100, 10⟩ (fun _ => .error "connection refused") none
    (fun _ => "connection refused") (by decide) (by decide) (fun _ => rfl)

/-- C8: the dial loop only ever contacts the first address of a
multi-address endpoint set: every websocket location dialed during
`Open` is the one built from the first address, and when every attempt
fails the full (non-empty) budget of attempts is spent on that same
first address — later addresses are never tried. -/
theorem open_contacts_only_first_address :
    ∀ (cacert : List Nat) (tag pwd a0 a1 : String) (rest : List String)
      (opts : DialOpts) (env : Env),
      (∀ u ∈ (Open ⟨a0 :: a1 :: rest, cacert, tag, pwd⟩ opts env).2.contacted,
        u = wsURL a0) ∧
      (∀ (dial : Nat → Except String Nat) (loginE : Option String)
          (errf : Nat → String), (∀ k, dial k = .error (errf k)) →
        (Open ⟨a0 :: a1 :: rest, cacert, tag, pwd⟩ opts
            ⟨none, .ok (), dial, loginE⟩).2.contacted =
          List.replicate (numAttempts opts.Timeout opts.RetryDelay) (wsURL a0) ∧
        1 ≤ numAttempts opts.Timeout opts.RetryDelay) := by
  intro cacert tag pwd a0 a1 rest opts env
  constructor
  · intro u hu
    rcases env with ⟨cfgE, certR, dial, loginE⟩
    rcases cfgE with _ | e
    · rcases certR with e | c
      · simp only [Open, OpenTrace.empty] at hu
        simp at hu
      · simp only [Open] at hu
        rw [openDial_contacted] at hu
        exact List.eq_of_mem_replicate hu
    · simp only [Open, OpenTrace.empty] at hu
      simp at hu
  · intro dial loginE errf hfail
    refine ⟨?_, numAttempts_pos opts.Timeout opts.RetryDelay⟩
    simp only [Open]
    rw [openDial_contacted]
    simp only
    rw [dialFrom_all_fail dial opts.RetryDelay errf hfail
      (numAttempts opts.Timeout opts.RetryDelay) 0
      (numAttempts_pos opts.Timeout opts.RetryDelay)]

theorem open_contacts_only_first_address_witness :
    (Open ⟨["a", "b"], [], "", ""⟩ ⟨30, 10⟩
        ⟨none, .ok (), fun _ => .error "refused", none⟩).2.contacted =
      List.replicate (numAttempts 30 10) (wsURL "a") ∧
    1 ≤ numAttempts 30 10 :=
  (open_contacts_only_first_address [] "" "" "a" "b" [] ⟨30, 10⟩
    ⟨none, .ok (), fun _ => .error "refused", none⟩).2
    (fun _ => .error "refused") none (fun _ => "refused") (fun _ => rfl)

theorem openDial_ok (addr0 : String) (info : Info) (opts : DialOpts)
    (env : Env) (c : Nat)
    (hr : (dialFrom env.dialResult opts.RetryDelay 0
      (numAttempts opts.Timeout opts.RetryDelay)).result = .ok c) :
    openDial addr0 info opts env =
      openLogin c
        (List.replicate (dialFrom env.dialResult opts.RetryDelay 0
          (numAttempts opts.Timeout opts.RetryDelay)).attempts (wsURL addr0))
        (dialFrom env.dialResult opts.RetryDelay 0
          (numAttempts opts.Timeout opts.RetryDelay)).attempts
        (dialFrom env.dialResult opts.RetryDelay 0
          (numAttempts opts.Timeout opts.RetryDelay)).waits info env := by
  simp only [openDial]
  rw [hr]

/-- C3: unrecoverable identity and trust errors are never retried.
First conjunct: when the supplied CA certificate bytes do not parse,
`Open` returns that parse error with the empty trace — zero dial
attempts, nothing contacted, so the retry loop was never entered.
Second conjunct: when the dial loop succeeds and the subsequent login
fails, `Open` returns the login error and the trace records exactly the
attempts and waits of that single pass through the loop — the loop is
not re-entered after the login failure. -/
theorem open_unrecoverable_errors_not_retried :
    (∀ (cacert : List Nat) (tag pwd addr0 : String) (tl : List String)
        (opts : DialOpts) (dial : Nat → Except String Nat)
        (loginE : Option String) (e : String),
      Open ⟨addr0 :: tl, cacert, tag, pwd⟩ opts ⟨none, .error e, dial, loginE⟩ =
        (.failure e, ⟨[], 0, [], false, false, false⟩)) ∧
    (∀ (cacert : List Nat) (tag pwd addr0 : String) (tl : List String)
        (opts : DialOpts) (dial : Nat → Except String Nat) (e : String)
        (c : Nat),
      (dialFrom dial opts.RetryDelay 0
        (numAttempts opts.Timeout opts.RetryDelay)).result = .ok c →
      (tag ≠ "" ∨ pwd ≠ "") →
      Open ⟨addr0 :: tl, cacert, tag, pwd⟩ opts ⟨none, .ok (), dial, some e⟩ =
        (.failure e,
         ⟨List.replicate (dialFrom dial opts.RetryDelay 0
            (numAttempts opts.Timeout opts.RetryDelay)).attempts (wsURL addr0),
          (dialFrom dial opts.RetryDelay 0
            (numAttempts opts.Timeout opts.RetryDelay)).attempts,
          (dialFrom dial opts.RetryDelay 0
            (numAttempts opts.Timeout opts.RetryDelay)).waits,
          true, true, false⟩)) := by
  constructor
  · intro cacert tag pwd addr0 tl opts dial loginE e
    rfl
  · intro cacert tag pwd addr0 tl opts dial e c hr hid
    simp only [Open]
    rw [openDial_ok addr0 ⟨addr0 :: tl, cacert, tag, pwd⟩ opts
      ⟨none, .ok (), dial, some e⟩ c hr]
    simp only [openLogin]
    rw [if_pos hid]

theorem open_unrecoverable_errors_not_retried_witness :
    Open ⟨["srv"], [9], "machine-0", "pw"⟩ ⟨100, 10⟩
        ⟨none, .ok (), fun _ => .ok 7, some "invalid entity name or password"⟩ =
      (.failure "invalid entity name or password",
       ⟨List.replicate (dialFrom (fun _ => .ok 7) 10 0
          (numAttempts 100 10)).attempts (wsURL "srv"),
        (dialFrom (fun _ => .ok 7) 10 0 (numAttempts 100 10)).attempts,
        (dialFrom (fun _ => .ok 7) 10 0 (numAttempts 100 10)).waits,
        true, true, false⟩) :=
  open_unrecoverable_errors_not_retried.2 [9] "machine-0" "pw" "srv" []
    ⟨100, 10⟩ (fun _ => .ok 7) "invalid entity name or password" 7
    rfl (Or.inl (by decide))

/-- C4: `Open` attempts a login exactly when at least one of the tag
and the password is non-empty.  First conjunct: after a successful
dial, the trace's login flag equals the test `tag ≠ "" ∨ password ≠ ""`
whatever the login outcome would be.  Second conjunct: with both
identity fields empty no login is attempted (whatever the login outcome
input holds) and an unauthenticated session on the dialed connection is
returned. -/
theorem open_login_attempted_iff_identity_nonempty :
    (∀ (cacert : List Nat) (tag pwd addr0 : String) (tl : List String)
        (opts : DialOpts) (dial : Nat → Except String Nat)
        (loginE : Option String) (c : Nat),
      (dialFrom dial opts.RetryDelay 0
        (numAttempts opts.Timeout opts.RetryDelay)).result = .ok c →
      (Open ⟨addr0 :: tl, cacert, tag, pwd⟩ opts
          ⟨none, .ok (), dial, loginE⟩).2.loginAttempted =
        decide (tag ≠ "" ∨ pwd ≠ "")) ∧
    (∀ (cacert : List Nat) (addr0 : String) (tl : List String)
        (opts : DialOpts) (dial : Nat → Except String Nat)
        (loginE : Option String) (c : Nat),
      (dialFrom dial opts.RetryDelay 0
        (numAttempts opts.Timeout opts.RetryDelay)).result = .ok c →
      Open ⟨addr0 :: tl, cacert, "", ""⟩ opts ⟨none, .ok (), dial, loginE⟩ =
        (.ok ⟨c, false, false⟩,
         ⟨List.replicate (dialFrom dial opts.RetryDelay 0
            (numAttempts opts.Timeout opts.RetryDelay)).attempts (wsURL addr0),
          (dialFrom dial opts.RetryDelay 0
            (numAttempts opts.Timeout opts.RetryDelay)).attempts,
          (dialFrom dial opts.RetryDelay 0
            (numAttempts opts.Timeout opts.RetryDelay)).waits,
          false, false, true⟩)) := by
  constructor
  · intro cacert tag pwd addr0 tl opts dial loginE c hr
    simp only [Open]
    rw [openDial_ok addr0 ⟨addr0 :: tl, cacert, tag, pwd⟩ opts
      ⟨none, .ok (), dial, loginE⟩ c hr]
    simp only [openLogin]
    by_cases hid : tag ≠ "" ∨ pwd ≠ ""
    · rw [if_pos hid]
      cases loginE <;> simp [hid]
    · rw [if_neg hid]
      simp [hid]
  · intro cacert addr0 tl opts dial loginE c hr
    simp only [Open]
    rw [openDial_ok addr0 ⟨addr0 :: tl, cacert, "", ""⟩ opts
      ⟨none, .ok (), dial, loginE⟩ c hr]
    simp only [openLogin]
    rw [if_neg (by simp)]

theorem open_login_attempted_iff_identity_nonempty_witness :
    Open ⟨["srv"], [], "", ""⟩ ⟨100, 10⟩
        ⟨none, .ok (), fun _ => .ok 3, some "would fail"⟩ =
      (.ok ⟨3, false, false⟩,
       ⟨List.replicate (dialFrom (fun _ => .ok 3) 10 0
          (numAttempts 100 10)).attempts (wsURL "srv"),
        (dialFrom (fun _ => .ok 3) 10 0 (numAttempts 100 10)).attempts,
        (dialFrom (fun _ => .ok 3) 10 0 (numAttempts 100 10)).waits,
        false, false, true⟩) :=
  open_login_attempted_iff_identity_nonempty.2 [] "srv" [] ⟨100, 10⟩
    (fun _ => .ok 3) (some "would fail") 3 rfl

/-- C5: when the connection is established but the login fails, `Open`
closes the just-opened connection and reports the login error as the
dial-time failure: the result is the login error (so a nil `State` with
a non-nil error), the trace shows the connection closed and the
heartbeat monitor never started, and no `State` value is returned. -/
theorem open_login_failure_closes_conn_and_fails :
    ∀ (cacert : List Nat) (tag pwd addr0 : String) (tl : List String)
      (opts : DialOpts) (dial : Nat → Except String Nat) (e : String)
      (c : Nat),
      (dialFrom dial opts.RetryDelay 0
        (numAttempts opts.Timeout opts.RetryDelay)).result = .ok c →
      (tag ≠ "" ∨ pwd ≠ "") →
      (Open ⟨addr0 :: tl, cacert, tag, pwd⟩ opts
          ⟨none, .ok (), dial, some e⟩).1 = .failure e ∧
      (Open ⟨addr0 :: tl, cacert, tag, pwd⟩ opts
          ⟨none, .ok (), dial, some e⟩).2.connClosed = true ∧
      (Open ⟨addr0 :: tl, cacert, tag, pwd⟩ opts
          ⟨none, .ok (), dial, some e⟩).2.monitorStarted = false ∧
      (∀ st : State, (Open ⟨addr0 :: tl, cacert, tag, pwd⟩ opts
          ⟨none, .ok (), dial, some e⟩).1 ≠ .ok st) := by
  intro cacert tag pwd addr0 tl opts dial e c hr hid
  have h : Open ⟨addr0 :: tl, cacert, tag, pwd⟩ opts
      ⟨none, .ok (), dial, some e⟩ =
      (.failure e,
       ⟨List.replicate (dialFrom dial opts.RetryDelay 0
          (numAttempts opts.Timeout opts.RetryDelay)).attempts (wsURL addr0),
        (dialFrom dial opts.RetryDelay 0
          (numAttempts opts.Timeout opts.RetryDelay)).attempts,
        (dialFrom dial opts.RetryDelay 0
          (numAttempts opts.Timeout opts.RetryDelay)).waits,
        true, true, false⟩) := by
    simp only [Open]
    rw [openDial_ok addr0 ⟨addr0 :: tl, cacert, tag, pwd⟩ opts
      ⟨none, .ok (), dial, some e⟩ c hr]
    simp only [openLogin]
    rw [if_pos hid]
  rw [h]
  exact ⟨rfl, rfl, rfl, fun st hst => OpenResult.noConfusion hst⟩

theorem open_login_failure_closes_conn_and_fails_witness :
    (Open ⟨["srv"], [], "unit-x-0", "bad"⟩ ⟨40, 20⟩
        ⟨none, .ok (), fun _ => .ok 11, some "login denied"⟩).1 =
      .failure "login denied" ∧
    (Open ⟨["srv"], [], "unit-x-0", "bad"⟩ ⟨40, 20⟩
        ⟨none, .ok (), fun _ => .ok 11, some "login denied"⟩).2.connClosed = true ∧
    (Open ⟨["srv"], [], "unit-x-0", "bad"⟩ ⟨40, 20⟩
        ⟨none, .ok (), fun _ => .ok 11, some "login denied"⟩).2.monitorStarted = false ∧
    (∀ st : State, (Open ⟨["srv"], [], "unit-x-0", "bad"⟩ ⟨40, 20⟩
        ⟨none, .ok (), fun _ => .ok 11, some "login denied"⟩).1 ≠ .ok st) :=
  open_login_failure_closes_conn_and_fails [] "unit-x-0" "bad" "srv" []
    ⟨40, 20⟩ (fun _ => .ok 11) "login denied" 11 rfl (Or.inl (by decide))

/-- C6: `Call` translates the underlying rpc outcome for its caller and
does nothing else: the session state it returns is exactly the one it
was given (in particular the broken channel and the connection keep
their status), and the returned error is present exactly when the
underlying call failed — the failure reaches only the issuing caller
through the return value. -/
theorem call_failure_scoped_to_caller :
    ∀ (s : State) (r : Option CallErr),
      (Call s r).1 = s ∧
      (Call s r).1.brokenClosed = s.brokenClosed ∧
      (Call s r).1.connClosed = s.connClosed ∧
      ((Call s r).2 = none ↔ r = none) := by
  intro s r
  refine ⟨rfl, rfl, rfl, ?_⟩
  rcases r with _ | e
  · simp [Call, clientError]
  · cases e <;> simp [Call, clientError]

end JujuApi

namespace FileNotify

/-- C7: cancellation of the file-notify watcher is cooperative: its
loop selects on the supervision kernel's `Dying()` signal, and whenever
that signal fires it stops — it returns the dying error, runs its
deferred cleanup (closing the inotify watcher and the changes channel),
processes exactly the signals that arrived before the dying one plus
the dying signal itself, and emits only the changes produced by those
earlier signals; everything after the dying signal is never looked at. -/
theorem watcher_loop_returns_on_dying :
    ∀ (watchPath : String) (pre post : List LoopSignal),
      (∀ s ∈ pre, s ≠ .dying) →
      loop watchPath (pre ++ .dying :: post) =
        ⟨(loop watchPath pre).emitted, some errDying,
          pre.length + 1, true, true⟩ := by
  intro wp pre post hpre
  induction pre with
  | nil => rfl
  | cons s pre ih =>
    have hs : s ≠ LoopSignal.dying := hpre s (by simp)
    have hpre2 : ∀ x ∈ pre, x ≠ LoopSignal.dying :=
      fun x hx => hpre x (by simp [hx])
    have hrec := ih hpre2
    rcases s with _ | ⟨name, mask⟩ | msg
    · exact absurd rfl hs
    · simp only [List.cons_append, loop, List.length_cons]
      split
      · simp [hrec, Nat.add_comm]
      · split
        · simp [hrec, Nat.add_comm]
        · simp [hrec, Nat.add_comm]
    · simp only [List.cons_append, loop, List.length_cons]
      simp [hrec, Nat.add_comm]

theorem watcher_loop_returns_on_dying_witness :
    loop "controller" ([.event "controller" 256, .watchFail "epoll"] ++
        .dying :: [.event "controller" 512]) =
      ⟨(loop "controller" [.event "controller" 256, .watchFail "epoll"]).emitted,
        some errDying,
        [LoopSignal.event "controller" 256, LoopSignal.watchFail "epoll"].length + 1,
        true, true⟩ :=
  watcher_loop_returns_on_dying "controller"
    [.event "controller" 256, .watchFail "epoll"]
    [.event "controller" 512] (by decide)

end FileNotify
